import Mathlib

/-!
Verification of the survey-mapper job-orchestration subsystem
(`app/api/async_routes.py`, `app/custom_logging/fail_fast_logger.py`,
`app/custom_logging/custom_logger.py`) against its natural-language
specification.

The Python code is shallowly embedded: pure fragments become Lean
functions, the SQLite job table becomes a record type, the background
run becomes a function from an environment (step outcomes, cancellation
flags, exception sites) to the ordered list of status writes it
performs, and the interleaving of orchestrator writes with the
cancellation handler becomes a small operational trace semantics.
Strings are modelled as Lean `String`s and the two regular expressions
of the watcher (`RE_ARCGIS_ERR`, `ERROR_WORD`) and the two line
grammars of the log classifier (`RE_PIPE`, `RE_DASH`) are implemented
as executable character-level matchers mirroring the Python regexes
(anchored search, lazy timestamp group, greedy whitespace, character
classes), restricted to the ASCII behaviour the log files use.
-/

namespace SurveyMapperModel

/-! ## Character and string utilities

These mirror the Python primitives used by the code: `str.lower`,
substring containment (`"error" in s`), the regex word class `\w`, and
whitespace tests.  All work on `List Char` so that proofs and witness
evaluations reduce without the `String`/`Substring` byte-position
machinery. -/

/-- Python `str.lower`, restricted to the ASCII log text the code handles. -/
def lowerList (l : List Char) : List Char :=
  l.map Char.toLower

/-- Regex word-character class `\w` = `[A-Za-z0-9_]`. -/
def isWordChar (c : Char) : Bool :=
  c.isAlphanum || c = '_'

/-- Does `needle` occur at the head of `hay`? -/
def prefixMatches : List Char → List Char → Bool
  | [], _ => true
  | _ :: _, [] => false
  | a :: as, b :: bs => a = b && prefixMatches as bs

/-- Does `needle` occur anywhere inside `hay` (Python `needle in hay`)? -/
def subOccurs (needle : List Char) : List Char → Bool
  | [] => prefixMatches needle []
  | c :: rest => prefixMatches needle (c :: rest) || subOccurs needle rest

/-- Python `sub in s` on strings. -/
def containsSub (needle hay : String) : Bool :=
  subOccurs needle.toList hay.toList

/-- The letters of the word the watcher greps for. -/
def errLower : List Char := ['e', 'r', 'r', 'o', 'r']

/-- The letters of the word the classifier promotes to WARNING. -/
def warnLower : List Char := ['w', 'a', 'r', 'n', 'i', 'n', 'g']

/-- No word character before the candidate match (`\b` on the left). -/
def nonWordBefore : Option Char → Bool
  | none => true
  | some c => !isWordChar c

/-- No word character after the candidate match (`\b` on the right). -/
def nonWordAfter : List Char → Bool
  | [] => true
  | c :: _ => !isWordChar c

/-- `\berror\b` (case-insensitive) matches at the head of `l`,
where `prev` is the character preceding `l` in the scanned text. -/
def errorWordAt (prev : Option Char) (l : List Char) : Bool :=
  prefixMatches errLower (lowerList l) && nonWordBefore prev && nonWordAfter (l.drop 5)

/-- Scan of `ERROR_WORD = re.compile(r"\berror\b", re.IGNORECASE)` over a text:
`re.search` tries the pattern at every position. -/
def containsErrorWordGo : Option Char → List Char → Bool
  | _, [] => false
  | prev, c :: rest => errorWordAt prev (c :: rest) || containsErrorWordGo (some c) rest

/-- `ERROR_WORD.search(s)` of `fail_fast_logger.py`. -/
def containsErrorWord (s : String) : Bool :=
  containsErrorWordGo none s.toList

/-! ### The `RE_ARCGIS_ERR` matcher

`RE_ARCGIS_ERR` is `^\s* (?:(ts)\s*)? ERROR\s+\d{3,6}\s*:\s*.+?\s*$` with
`re.IGNORECASE | re.VERBOSE` and no `re.MULTILINE`, where `ts` is
`\d{4}-\d{2}-\d{2}[ T]\d{2}:\d{2}:\d{2}(?:[.,]\d{3,6})?`.  Because `^` only
matches at the start of the string when `MULTILINE` is off, `search` is an
anchored match.  The fixed-width digit groups and the delimiters that follow
them make the regex backtracking degenerate, so a deterministic parser is
faithful: a digit run must have an acceptable length outright (a leftover
digit can never be matched by the following delimiter), and the trailing
`.+?\s*$` accepts exactly the remainders containing a non-newline
character. -/

/-- Consume exactly `n` digits (`\d{n}` followed by a non-digit delimiter). -/
def stripDigits : Nat → List Char → Option (List Char)
  | 0, l => some l
  | _ + 1, [] => none
  | n + 1, c :: t => if c.isDigit then stripDigits n t else none

/-- Consume one expected literal character. -/
def stripChar (c : Char) : List Char → Option (List Char)
  | [] => none
  | d :: t => if d = c then some t else none

/-- Consume the date/time separator `[ T]`; under `IGNORECASE` the class
also matches a lowercase `t`. -/
def stripSepST : List Char → Option (List Char)
  | [] => none
  | c :: t => if c = ' ' || c = 'T' || c = 't' then some t else none

/-- Optional fraction group `(?:[.,]\d{3,6})?` after the seconds. -/
def stripFrac (l : List Char) : List Char :=
  match l with
  | [] => []
  | c :: t =>
    if c = '.' || c = ',' then
      let d := t.takeWhile Char.isDigit
      if 3 ≤ d.length && d.length ≤ 6 then t.dropWhile Char.isDigit else c :: t
    else c :: t

/-- The optional timestamp group of `RE_ARCGIS_ERR`. -/
def parseArcgisTs (l : List Char) : Option (List Char) :=
  (stripDigits 4 l).bind fun l1 =>
  (stripChar '-' l1).bind fun l2 =>
  (stripDigits 2 l2).bind fun l3 =>
  (stripChar '-' l3).bind fun l4 =>
  (stripDigits 2 l4).bind fun l5 =>
  (stripSepST l5).bind fun l6 =>
  (stripDigits 2 l6).bind fun l7 =>
  (stripChar ':' l7).bind fun l8 =>
  (stripDigits 2 l8).bind fun l9 =>
  (stripChar ':' l9).bind fun l10 =>
  (stripDigits 2 l10).map stripFrac

/-- The literal `ERROR` under `IGNORECASE`. -/
def stripCIError (l : List Char) : Option (List Char) :=
  match l with
  | a :: b :: c :: d :: e :: rest =>
    if lowerList [a, b, c, d, e] = errLower then some rest else none
  | _ => none

/-- The part of `RE_ARCGIS_ERR` after the optional timestamp:
`ERROR\s+\d{3,6}\s*:\s*.+?\s*$`. -/
def arcgisAfterTs (l : List Char) : Bool :=
  match stripCIError l with
  | none => false
  | some r1 =>
    match r1 with
    | [] => false
    | c :: t =>
      if c.isWhitespace then
        let r2 := t.dropWhile Char.isWhitespace
        let d := r2.takeWhile Char.isDigit
        let r3 := r2.dropWhile Char.isDigit
        if 3 ≤ d.length && d.length ≤ 6 then
          match r3.dropWhile Char.isWhitespace with
          | ':' :: r5 => r5.any (fun ch => ch ≠ '\n')
          | _ => false
        else false
      else false

/-- `RE_ARCGIS_ERR.search(s)` of `fail_fast_logger.py`. -/
def matchesArcgisErr (s : String) : Bool :=
  let l0 := s.toList.dropWhile Char.isWhitespace
  (match parseArcgisTs l0 with
   | some rest => arcgisAfterTs (rest.dropWhile Char.isWhitespace)
   | none => false)
  || arcgisAfterTs l0

/-! ## Fail-fast watcher (`fail_fast_logger.py`)

`FailFastLogWatcher` keeps a latched message `_error_msg` updated with
Python's `self._error_msg = self._error_msg or msg`, whose truthiness
semantics (an empty string is falsy) the model reproduces exactly. -/

/-- Python truthiness of `Optional[str]`: `None` and `""` are falsy. -/
def pyTruthy : Option String → Bool
  | none => false
  | some s => !(s = "")

/-- Python `self._error_msg = self._error_msg or msg`. -/
def latchFirst (cur : Option String) (msg : String) : Option String :=
  if pyTruthy cur then cur else some msg

/-- State of one `FailFastLogWatcher`.  `pollFile` is the constructor's
`poll_file and self.log_file is not None`. -/
structure FailFastLogWatcher where
  hasLogFile : Bool
  pollFile : Bool
  errorMsg : Option String
deriving DecidableEq, Repr

/-- `FailFastLogWatcher.__init__(log_file, poll_file)`. -/
def watcherInit (hasLog poll : Bool) : FailFastLogWatcher :=
  ⟨hasLog, poll && hasLog, none⟩

/-- One outcome of `self.log_file.read_text(...)` during `scan_file_once`:
either the read raised, or it produced the file's current text. -/
inductive ScanRead
  | ioError
  | content (txt : String)
deriving DecidableEq, Repr

/-- The detection condition of `FailFastLogWatcher.emit`: the record is
at ERROR severity (`levelno >= 40`), or its message matches
`RE_ARCGIS_ERR` or contains the word `error`. -/
def emitDetects (levelno : Nat) (msg : String) : Bool :=
  decide (40 ≤ levelno) || matchesArcgisErr msg || containsErrorWord msg

/-- `FailFastLogWatcher.emit(record)`. -/
def watcherEmitEvent (w : FailFastLogWatcher) (levelno : Nat) (msg : String) :
    FailFastLogWatcher :=
  if emitDetects levelno msg then
    { w with errorMsg := latchFirst w.errorMsg msg }
  else w

/-- `FailFastLogWatcher.scan_file_once()`: no-op without a polled file,
swallows read errors, otherwise latches a fixed message when the file
text matches the error patterns. -/
def watcherScanFileOnce (w : FailFastLogWatcher) (r : ScanRead) : FailFastLogWatcher :=
  if !w.pollFile || !w.hasLogFile then w
  else
    match r with
    | .ioError => w
    | .content txt =>
      if matchesArcgisErr txt || containsErrorWord txt then
        { w with errorMsg := latchFirst w.errorMsg "Error detected in log file" }
      else w

/-- One observable interaction with a watcher: a logger event delivered
to `emit`, or a `scan_file_once` call with the given read outcome. -/
inductive WatchEvent
  | emit (levelno : Nat) (msg : String)
  | scan (r : ScanRead)
deriving DecidableEq, Repr

/-- Apply one event to the watcher state. -/
def watchStep (w : FailFastLogWatcher) : WatchEvent → FailFastLogWatcher
  | .emit levelno msg => watcherEmitEvent w levelno msg
  | .scan r => watcherScanFileOnce w r

/-! ## Job statuses and the status store (`async_routes.py`)

The `jobs` SQLite table stores `status` as TEXT; the only values ever
written are the six literals below, so the model uses an enumeration. -/

/-- The job lifecycle statuses written by `async_routes.py`. -/
inductive Status
  | queued
  | processing
  | cancelling
  | canceled
  | failed
  | complete
deriving DecidableEq, Repr

/-- Terminal states per the specification glossary: `canceled`, `failed`,
`complete`. -/
def Status.isTerminal : Status → Bool
  | .canceled | .failed | .complete => true
  | _ => false

/-- One row of the `jobs` table (schema of `init_db`). -/
structure JobRecord where
  job_id : String
  status : Status
  created_at : String
  updated_at : String
  error : Option String
  output_dir : String
  result_zip_path : Option String
deriving DecidableEq, Repr

/-- The effect on one row of the statement executed by `update_status_safe`:
`UPDATE jobs SET status = ?, updated_at = ?, error = ? WHERE job_id = ?`.
The `error` argument is `none` when the Python caller omits it
(default `None`, stored as SQL NULL). -/
def applyStatusUpdate (rec : JobRecord) (jobId : String) (status : Status)
    (now : String) (error : Option String) : JobRecord :=
  if rec.job_id = jobId then
    { rec with status := status, updated_at := now, error := error }
  else rec

/-- Result of one `update_status_safe` call: whether a write committed, how
many write attempts were made, and the `time.sleep` durations (seconds)
between attempts, in order. -/
structure UpdateOutcome where
  committed : Bool
  attempts : Nat
  sleeps : List ℚ
deriving DecidableEq, Repr

/-- The retry loop of `update_status_safe`.  `store n` is the outcome of
the `(n+1)`-th write attempt (`.error e` models any exception raised by
connect/execute/commit, with its text).  The first pattern argument is
the current value of the Python `attempt` counter; on failure the code
increments it, returns once `attempt >= retries`, and otherwise sleeps
`backoff * attempt` before retrying.  The local logging of the failure
is itself wrapped in `try/except: pass` and never raises.  The second
argument is structural fuel: the loop terminates because `attempt`
strictly increases towards the cap, so any fuel of at least
`retries - attempt` makes the base case unreachable. -/
def updateStatusSafeGo (store : Nat → Except String Unit) (retries : Nat)
    (backoff : ℚ) : Nat → Nat → UpdateOutcome
  | _, 0 => ⟨false, 0, []⟩
  | attempt, fuel + 1 =>
    match store attempt with
    | .ok _ => ⟨true, 1, []⟩
    | .error _ =>
      if retries ≤ attempt + 1 then ⟨false, 1, []⟩
      else
        ⟨(updateStatusSafeGo store retries backoff (attempt + 1) fuel).committed,
         (updateStatusSafeGo store retries backoff (attempt + 1) fuel).attempts + 1,
         backoff * ((attempt : ℚ) + 1)
           :: (updateStatusSafeGo store retries backoff (attempt + 1) fuel).sleeps⟩

/-- `update_status_safe(job_id, status, error)` with its default
`retries=6, backoff=0.25`, as a function of the store's behaviour.  The
function is total and its result type carries no exception: for every
sequence of store errors the call returns normally to its caller. -/
def update_status_safe (store : Nat → Except String Unit) : UpdateOutcome :=
  updateStatusSafeGo store 6 (1/4) 0 6

/-- A list is a geometric progression: consecutive elements stand in one
fixed ratio.  Modelled from the spec: "retries with bounded exponential
backoff" means each backoff delay is the previous one multiplied by a
constant factor. -/
def GeometricBackoff (l : List ℚ) : Prop :=
  ∃ r : ℚ, List.Chain' (fun a b => b = r * a) l

/-! ## Log classifier (`custom_logger.py`) -/

/-- A `LogEntry` (`response_models.py`).  The code stores the parsed
timestamp as a `datetime` when `datetime.fromisoformat` accepts it and
keeps the raw string otherwise; the model keeps the source text in both
cases, which affects neither bucketing nor messages. -/
structure LogEntry where
  ts : String
  level : String
  logger : String
  msg : String
  file : Option String
deriving DecidableEq, Repr

/-- A `LogsByLevel` view (`response_models.py`): three ordered buckets
plus the optional degraded-collection note (default `None`). -/
structure LogsByLevel where
  info : List LogEntry
  warning : List LogEntry
  error : List LogEntry
  note : Option String
deriving DecidableEq, Repr

/-! ### The two line grammars

`RE_PIPE = ^(?P<ts>.+?)\s*\|\s*(?P<level>DEBUG|INFO|WARNING|ERROR|CRITICAL)\s*\|\s*(?P<logger>[^|]+)\s*\|\s*(?P<msg>.*)$`
`RE_DASH = ^(?P<ts>.+?)\s*-\s*(?P<level>DEBUG|INFO|WARNING|ERROR|CRITICAL)\s*-\s*(?P<msg>.*)$`

The lazy `ts` group makes the match pick the shortest timestamp whose
remainder parses; the greedy `\s*` before each delimiter must end
exactly at the delimiter character; the logger group `[^|]+` cannot
cross a pipe, so after resolving the greedy whitespace it extends to
the next pipe.  Input lines are modelled without their trailing
newline, which `$` skips and `.` cannot match. -/

/-- Non-newline whitespace dropped by a greedy `\s*` inside a line. -/
def dropWs (l : List Char) : List Char :=
  l.dropWhile Char.isWhitespace

/-- Match one of `DEBUG|INFO|WARNING|ERROR|CRITICAL` at the head,
returning the level text and the remainder. -/
def matchLevel (l : List Char) : Option (String × List Char) :=
  if prefixMatches "DEBUG".toList l then some ("DEBUG", l.drop 5)
  else if prefixMatches "INFO".toList l then some ("INFO", l.drop 4)
  else if prefixMatches "WARNING".toList l then some ("WARNING", l.drop 7)
  else if prefixMatches "ERROR".toList l then some ("ERROR", l.drop 5)
  else if prefixMatches "CRITICAL".toList l then some ("CRITICAL", l.drop 8)
  else none

/-- The part of `RE_PIPE` after the lazy timestamp:
`\s*\|\s* level \s*\|\s* logger \s*\|\s* msg$`.  The logger capture keeps
the characters up to the next pipe except that, when they are all
whitespace, the greedy `\s*` backtracks to leave the last one. -/
def pipeAfterTs (rest : List Char) : Option (String × String × String) :=
  match dropWs rest with
  | '|' :: r2 =>
    match matchLevel (dropWs r2) with
    | some (lvl, r4) =>
      match dropWs r4 with
      | '|' :: r6 =>
        let seg := r6.takeWhile (fun c => c ≠ '|')
        match r6.dropWhile (fun c => c ≠ '|') with
        | '|' :: r7 =>
          if seg.isEmpty then none
          else
            let k := min (seg.takeWhile Char.isWhitespace).length (seg.length - 1)
            some (lvl, String.mk (seg.drop k), String.mk (r7.dropWhile Char.isWhitespace))
        | _ => none
      | _ => none
    | none => none
  | _ => none

/-- `RE_PIPE.match(line)`: try every nonempty lazy timestamp, shortest
first.  `acc` holds the reversed candidate timestamp consumed so far. -/
def rePipeGo (acc : List Char) : List Char → Option (String × String × String × String)
  | [] => none
  | c :: rest =>
    match pipeAfterTs rest with
    | some (lvl, lg, m) => some (String.mk (acc ++ [c]), lvl, lg, m)
    | none => rePipeGo (acc ++ [c]) rest

/-- `RE_PIPE.match(line)` returning `(ts, level, logger, msg)`. -/
def rePipeMatch (line : String) : Option (String × String × String × String) :=
  rePipeGo [] line.toList

/-- The part of `RE_DASH` after the lazy timestamp:
`\s*-\s* level \s*-\s* msg$`. -/
def dashAfterTs (rest : List Char) : Option (String × String) :=
  match dropWs rest with
  | '-' :: r2 =>
    match matchLevel (dropWs r2) with
    | some (lvl, r4) =>
      match dropWs r4 with
      | '-' :: r6 => some (lvl, String.mk (r6.dropWhile Char.isWhitespace))
      | _ => none
    | none => none
  | _ => none

/-- `RE_DASH.match(line)` returning `(ts, level, msg)`. -/
def reDashGo (acc : List Char) : List Char → Option (String × String × String)
  | [] => none
  | c :: rest =>
    match dashAfterTs rest with
    | some (lvl, m) => some (String.mk (acc ++ [c]), lvl, m)
    | none => reDashGo (acc ++ [c]) rest

/-- `RE_DASH.match(line)` returning `(ts, level, msg)`. -/
def reDashMatch (line : String) : Option (String × String × String) :=
  reDashGo [] line.toList

/-- `_parse_structured(line)`: `RE_PIPE` first, then `RE_DASH`; a dash
match has no logger group, and `groupdict().get("logger") or ""` yields
the empty string for it. -/
def parseStructuredLine (line : String) : Option LogEntry :=
  match rePipeMatch line with
  | some (ts, lvl, lg, m) => some ⟨ts, lvl, lg, m, none⟩
  | none =>
    match reDashMatch line with
    | some (ts, lvl, m) => some ⟨ts, lvl, "", m, none⟩
    | none => none

/-! ### `collect_logs_grouped_all`

The function appends entries to the three shared bucket lists while a
per-file `last_entry` aliases the most recently appended entry, so a
continuation line mutates that entry in place inside its bucket.  The
model processes each file into the ordered list of `(bucket, entry)`
pairs it contributes — `last_entry` is exactly the last pair of that
list, and a continuation rewrites its message — and then splits the
concatenation into the three buckets, preserving order. -/

/-- Which bucket of `LogsByLevel` an entry was appended to. -/
inductive Bucket
  | info
  | warning
  | error
deriving DecidableEq, Repr

/-- Python `not line.strip()`: the line is empty or all whitespace. -/
def pyBlank (l : List Char) : Bool :=
  l.all Char.isWhitespace

/-- Replace the message of the last produced entry (the in-place
mutation through `last_entry["msg"]`). -/
def appendToLastMsg (entries : List (Bucket × LogEntry)) (line : String) :
    List (Bucket × LogEntry) :=
  match entries.getLast? with
  | none => entries
  | some (b, e) =>
    entries.dropLast ++ [(b, { e with msg := e.msg ++ "\n" ++ line })]

/-- The per-line body of the `for raw in f` loop: structured parse,
blank skip, raw `error`/`warning` promotion, continuation merging, and
the leading-INFO fallback.  `fileName` is `path.name` and `fileHintTs`
the file's mtime rendered by `datetime.fromtimestamp(...).isoformat()`.
Lines are modelled without their trailing newline, which only `$` of
the structured grammars and `rstrip("\r\n")` would consume. -/
def classifyLine (fileName fileHintTs : String) (entries : List (Bucket × LogEntry))
    (line : String) : List (Bucket × LogEntry) :=
  match parseStructuredLine line with
  | some p =>
    let e : LogEntry := { p with file := some fileName }
    if p.level = "ERROR" ∨ p.level = "CRITICAL" then entries ++ [(.error, e)]
    else if p.level = "WARNING" then entries ++ [(.warning, e)]
    else entries ++ [(.info, e)]
  | none =>
    if pyBlank line.toList then entries
    else if subOccurs errLower (lowerList line.toList) then
      entries ++ [(.error, ⟨fileHintTs, "ERROR", "raw", line, some fileName⟩)]
    else if subOccurs warnLower (lowerList line.toList) then
      entries ++ [(.warning, ⟨fileHintTs, "WARNING", "raw", line, some fileName⟩)]
    else
      match entries.getLast? with
      | some _ => appendToLastMsg entries line
      | none => entries ++ [(.info, ⟨fileHintTs, "INFO", "raw", line, some fileName⟩)]

/-- One candidate log file (`*.txt` or `*.log` under `<output_dir>/logs`).
`lines` are the lines the `with path.open(...)` iteration yields before,
when `readError` is set, an exception interrupts the file (the entries
appended so far stay in the buckets and a synthetic reader-error entry
is added). -/
structure LogFile where
  name : String
  mtimeIso : String
  lines : List String
  readError : Option String
deriving DecidableEq, Repr

/-- Entries contributed by one file, in production order. -/
def processFile (nowIso : String) (f : LogFile) : List (Bucket × LogEntry) :=
  let entries := f.lines.foldl (classifyLine f.name f.mtimeIso) []
  match f.readError with
  | none => entries
  | some e =>
    entries ++ [(.error, ⟨nowIso, "ERROR", "log.reader",
      "Failed reading " ++ f.name ++ ": " ++ e, some f.name⟩)]

/-- The `<output_dir>/logs` directory as `collect_logs_grouped_all`
observes it: missing (not a directory), or the candidate files already
sorted oldest-to-newest by modification time as the code sorts them. -/
inductive LogsDir
  | missing
  | present (files : List LogFile)
deriving Repr

/-- Select one bucket from the tagged entry stream. -/
def bucketOf (b : Bucket) (l : List (Bucket × LogEntry)) : List LogEntry :=
  (l.filter (fun p => p.1 = b)).map (fun p => p.2)

/-- `collect_logs_grouped_all(output_dir, max_files=50)`.  A missing
logs directory returns the empty view built at the top of the function
(its `note` defaults to `None`); an empty candidate list returns the
empty view with the note `"No log files found"`; otherwise the first
`maxFiles` files are classified.  `nowIso` is `datetime.now().isoformat()`
used by reader-error entries.  The function is total: it returns a
`LogsByLevel` for every input. -/
def collect_logs_grouped_all (dir : LogsDir) (maxFiles : Nat) (nowIso : String) :
    LogsByLevel :=
  match dir with
  | .missing => ⟨[], [], [], none⟩
  | .present candidates =>
    if candidates.isEmpty then ⟨[], [], [], some "No log files found"⟩
    else
      let tagged := ((candidates.take maxFiles).map (processFile nowIso)).flatten
      ⟨bucketOf .info tagged, bucketOf .warning tagged, bucketOf .error tagged, none⟩

/-! ## The orchestrator (`run_survey_mapper`)

The background task is modelled as a function from an environment — the
outcomes of the two external-engine steps, the cancellation flag at each
of the five checks, the exception sites, and the raw error text the
external engine may have written into the log file at each on-demand
rescan — to the ordered list of status writes it performs, whether the
second checkpoint was invoked, whether the `finally` block unregistered
the job, and whether an exception escaped the function.

The per-job watcher state (`Option String`, the latched message) is
threaded through the run: every `job_logger` call the function makes is
delivered to the watcher's `emit`, with the concrete message texts of
the source.  The two inputs the model takes as booleans are the results
of the file-content pattern test inside each `scan_file_once` call,
because the file also receives text written by the external engine
outside the logger; the formatted lines the job logger itself wrote
before each scan contain the word `error` only in branches where the
watcher is already latched by the corresponding `emit`, so these flags
are exactly the external contribution. -/

/-- A Python step-result `errors` field as the step-2 handler reads it:
missing key, a `str`, a `list`, or any other value (passed to `str`). -/
inductive PyErrors
  | absent
  | pstr (s : String)
  | plist (l : List String)
  | pother (s : String)
deriving DecidableEq, Repr

/-- `errors = step2.get("errors", ["Export failed"])` followed by the
`isinstance` normalisation to a list of strings. -/
def pyErrorsToList : PyErrors → List String
  | .absent => ["Export failed"]
  | .pstr s => [s]
  | .plist l => l
  | .pother s => [s]

/-- Python `"; ".join(errors)`. -/
def joinSemicolon : List String → String
  | [] => ""
  | [s] => s
  | s :: rest => s ++ "; " ++ joinSemicolon rest

/-- A step result dict returned by the external engine
(`{success: bool, data: optional, errors: optional}`). -/
structure StepResult where
  success : Bool
  data : Option String
  errors : PyErrors
deriving DecidableEq, Repr

/-- One `update_status_safe(job_id, status, error)` call made by the
orchestrator or its helpers, with the status and error argument. -/
structure StatusWrite where
  status : Status
  error : Option String
deriving DecidableEq, Repr

/-- Observable outcome of one `run_survey_mapper` invocation. -/
structure RunResult where
  writes : List StatusWrite
  step2Invoked : Bool
  unregistered : Bool
  raisedOut : Bool
deriving DecidableEq, Repr

/-- Environment of one `run_survey_mapper` run.  The `cancelAt*` fields
are `cancel_event.is_set()` at the five checkpoints in source order; the
`*Raises` fields mark the statements that can raise into the outer
`except Exception` handler, with the text `str(exc)` the handler
records; `fileError*` fields are the external-engine contribution to
the log file observed by the corresponding `scan_file_once`. -/
structure OrchEnv where
  setupRaises : Bool
  preStartFileError : Bool
  cancelAt1 : Bool
  dbWarn : Bool
  dbWarnErrText : String
  cancelAt2 : Bool
  configRaises : Bool
  configErrText : String
  cancelAt3 : Bool
  step1Raises : Bool
  step1ErrText : String
  step1 : Option StepResult
  fileErrorAfterStep1 : Bool
  cancelAt4 : Bool
  step2Raises : Bool
  step2ErrText : String
  step2 : Option StepResult
  cancelAt5 : Bool
  fileErrorBeforeZip : Bool
  zipRaises : Bool
  zipErrText : String
  outputDir : String
deriving DecidableEq, Repr

/-- The warning recorded when the optional database fetch fails:
`f"Warning: could not load LUTAssetTypes from DB - {exc}"`. -/
def dbWarnMsg (env : OrchEnv) : String :=
  "Warning: could not load LUTAssetTypes from DB - " ++ env.dbWarnErrText

/-- The step-3 log line
`"Step 3: zipping output from '%s' to '%s'" % (output_base, zip_dest)`. -/
def zipLogMsg (env : OrchEnv) : String :=
  "Step 3: zipping output from '" ++ env.outputDir ++ "/results' to '"
    ++ env.outputDir ++ "/results.zip'"

/-- `not isinstance(step1, dict) or not step1.get("success", False)`,
negated: the step-1 result is a dict whose `success` value is truthy. -/
def step1Success (env : OrchEnv) : Bool :=
  match env.step1 with
  | some r => r.success
  | none => false

/-- The watcher's `emit` as it acts on the latched message alone
(the run model threads only that state). -/
def runEmit (st : Option String) (levelno : Nat) (msg : String) : Option String :=
  if emitDetects levelno msg then latchFirst st msg else st

/-- The watcher's `scan_file_once` during the run: `fileHasError` is the
result of the pattern test on the file's current text. -/
def runScan (st : Option String) (fileHasError : Bool) : Option String :=
  if fileHasError then latchFirst st "Error detected in log file" else st

/-- The `_abort_if_error(prefix)` helper: rescan the file, and when the
latched message is truthy, write `failed` with the prefixed fail-fast
message and log that message at ERROR level.  Returns the new watcher
state and the error text of the `failed` write when the run aborts. -/
def abortIfError (st : Option String) (fileHasError : Bool) (pfx : String) :
    Option String × Option String :=
  let st1 := runScan st fileHasError
  if pyTruthy st1 then
    let msg := pfx ++ "Fail-fast due to error in logs: " ++ (st1.getD "")
    (runEmit st1 40 msg, some msg)
  else (st1, none)

/-- The status writes after the initial `processing` write(s), together
with whether `export_feature_collections` (the second checkpoint) was
invoked.  `st` is the watcher state after the database-fetch phase.
Branches are in source order; every branch of the Python function
`return`s after its last write.  On the success path,
`save_final_zip_location` performs no status write (it only sets
`result_zip_path`), and its guards hold there absent external faults:
the job row exists, its status was just set to `complete`, and the zip
was created by the `zip_directory` call one line earlier. -/
def tailWrites (env : OrchEnv) (st : Option String) : List StatusWrite × Bool :=
  if env.cancelAt2 then ([⟨.canceled, some "Canceled before processing"⟩], false)
  else if env.configRaises then ([⟨.failed, some env.configErrText⟩], false)
  else if env.cancelAt3 then ([⟨.canceled, some "Canceled before grid processing"⟩], false)
  else if env.step1Raises then ([⟨.failed, some env.step1ErrText⟩], false)
  else if !step1Success env then
    match abortIfError
        (runEmit (runEmit st 20 "Step 1: process grid and clipping - start") 40
          "Step 1 failed")
        env.fileErrorAfterStep1 "after step1: " with
    | (_, some m) =>
      ([⟨.failed, some "Grid processing failed"⟩, ⟨.failed, some m⟩], false)
    | (_, none) => ([⟨.failed, some "Grid processing failed"⟩], false)
  else if env.cancelAt4 then ([⟨.canceled, some "Canceled before export"⟩], false)
  else if env.step2Raises then ([⟨.failed, some env.step2ErrText⟩], true)
  else
    match env.step2 with
    | none =>
      ([⟨.failed,
         some "Internal error - export_feature_collections did not return a dict"⟩],
       true)
    | some r2 =>
      if !r2.success then
        ([⟨.failed, some (joinSemicolon (pyErrorsToList r2.errors))⟩], true)
      else if env.cancelAt5 then ([⟨.canceled, some "Canceled before zip"⟩], true)
      else
        match abortIfError
            (runEmit
              (runEmit
                (runEmit
                  (runEmit
                    (runEmit st 20 "Step 1: process grid and clipping - start") 20
                    "Step 1: completed successfully") 20
                  "Step 2: export feature collections - start") 20
                "Step 2: completed successfully") 20
              (zipLogMsg env))
            env.fileErrorBeforeZip "before zip: " with
        | (_, some m) => ([⟨.failed, some m⟩], true)
        | (_, none) =>
          if env.zipRaises then
            ([⟨.failed, some ("Zipping failed: " ++ env.zipErrText)⟩], true)
          else ([⟨.complete, none⟩], true)

/-- The writes of the `try` body: the unconditional `processing` write,
the pre-start fail-fast check, the early cancellation check, the
optional database-fetch warning write, and the rest of the drive loop.
The database branch's informational messages and the successful-fetch
message contain no error pattern, so only the failing fetch affects the
watcher. -/
def bodyWrites (env : OrchEnv) : List StatusWrite × Bool :=
  match abortIfError (runEmit none 20 "Job started") env.preStartFileError
      "pre-start: " with
  | (_, some m) => ([⟨.processing, none⟩, ⟨.failed, some m⟩], false)
  | (st1, none) =>
    if env.cancelAt1 then
      ([⟨.processing, none⟩, ⟨.canceled, some "Canceled before start"⟩], false)
    else
      ((⟨.processing, none⟩ ::
          (if env.dbWarn then [⟨.processing, some (dbWarnMsg env)⟩] else []))
        ++ (tailWrites env
            (if env.dbWarn then
              runEmit (runEmit st1 20 "Attempting database fetch for LUTAssetTypes") 30
                (dbWarnMsg env)
            else st1)).1,
       (tailWrites env
          (if env.dbWarn then
            runEmit (runEmit st1 20 "Attempting database fetch for LUTAssetTypes") 30
              (dbWarnMsg env)
          else st1)).2)

/-- `run_survey_mapper(...)`.  The statements before the `try` block
(`build_job_logger`, discovery of the newest `log_*.txt`, watcher
construction and attachment) are outside the exception handler: when one
of them raises, the exception escapes the background task, no status is
written, and the `finally` block that would pop `RUNNING_JOBS` never
runs.  Otherwise every exception of the body is caught by the outer
`except Exception`, and the `finally` block always unregisters the
job. -/
def run_survey_mapper (env : OrchEnv) : RunResult :=
  if env.setupRaises then ⟨[], false, false, true⟩
  else ⟨(bodyWrites env).1, (bodyWrites env).2, true, false⟩

/-! ## The cancellation handler (`cancel_job`) -/

/-- A registry snapshot: `RUNNING_JOBS`, mapping a job id to its
`threading.Event`'s current flag. -/
def Registry := List (String × Bool)

/-- `RUNNING_JOBS.get(job_id)` under `JOBS_LOCK`. -/
def lookupEvent (reg : Registry) (jid : String) : Option Bool :=
  (List.find? (fun p => p.1 = jid) reg).map (fun p => p.2)

/-- The registry-level signal operation of the specification's
Cancellation Registry: set the token when present, report whether a
live token existed.  Looking up an unknown id returns `none` rather
than raising. -/
def signalToken (reg : Registry) (jid : String) : Bool × Registry :=
  match lookupEvent reg jid with
  | none => (false, reg)
  | some _ => (true, reg.map (fun p => if p.1 = jid then (p.1, true) else p))

/-- `SELECT ... FROM jobs WHERE job_id = ?`. -/
def dbFind (db : List JobRecord) (jid : String) : Option JobRecord :=
  List.find? (fun r => r.job_id = jid) db

/-- The guarded write of the cancellation handler:
`UPDATE jobs SET status='cancelling', updated_at=? WHERE job_id = ? AND status IN ('queued','processing')`. -/
def applyCancellingUpdate (db : List JobRecord) (jid now : String) : List JobRecord :=
  db.map (fun r =>
    if r.job_id = jid ∧ (r.status = .queued ∨ r.status = .processing) then
      { r with status := .cancelling, updated_at := now }
    else r)

/-- The three ways `cancel_job` responds. -/
inductive CancelOutcome
  | notFound
  | notRunning (lastStatus : Status)
  | cancelling
deriving DecidableEq, Repr

/-- `cancel_job(job_id)`: with no registered event, report the job's
stored status (`404`-equivalent when the row is also missing) and leave
both structures untouched; with an event, perform the guarded
`cancelling` write, then set the event. -/
def cancel_job (reg : Registry) (db : List JobRecord) (jid now : String) :
    CancelOutcome × List JobRecord × Registry :=
  match lookupEvent reg jid with
  | none =>
    match dbFind db jid with
    | none => (.notFound, db, reg)
    | some rec => (.notRunning rec.status, db, reg)
  | some _ =>
    (.cancelling, applyCancellingUpdate db jid now, (signalToken reg jid).2)

/-! ## Interleaved status traces (claim C1)

The status column of one job evolves under two writers: the
orchestrator's `update_status_safe` calls — unconditional sets, in the
order `run_survey_mapper` makes them — and the cancellation handlers
(`cancel_job`, `cancel_all_jobs`), whose write is guarded by
`status IN ('queued','processing')`.  A schedule is any interleaving of
the orchestrator's write sequence with cancellation writes; the trace
is the sequence of stored status values it produces, starting from the
`queued` the submission path inserts. -/

/-- One write applied to the job's stored status. -/
inductive Op
  | orch (s : Status)
  | cancel
deriving DecidableEq, Repr

/-- The orchestrator part of an operation. -/
def orchOf : Op → Option Status
  | .orch s => some s
  | .cancel => none

/-- Effect of the cancellation handler's guarded UPDATE on the stored
status. -/
def cancelWrite (s : Status) : Status :=
  if s = .queued ∨ s = .processing then .cancelling else s

/-- Effect of one operation on the stored status: orchestrator writes
set the column unconditionally. -/
def applyOp (s : Status) : Op → Status
  | .orch t => t
  | .cancel => cancelWrite s

/-- The stored-status trace produced by a schedule. -/
def traceFrom : Status → List Op → List Status
  | s, [] => [s]
  | s, op :: rest => s :: traceFrom (applyOp s op) rest

/-- The statuses the orchestrator writes, in order. -/
def orchStatusWrites (env : OrchEnv) : List Status :=
  (run_survey_mapper env).writes.map (fun w => w.status)

/-- A schedule is valid for `env` when its orchestrator writes are
exactly the writes of `run_survey_mapper env`, in order, with
cancellation writes interleaved arbitrarily. -/
def ValidSchedule (env : OrchEnv) (ops : List Op) : Prop :=
  ops.filterMap orchOf = orchStatusWrites env

/-- The transition graph of spec §4.5 as the claim reads it:
`queued -> processing -> {cancelling -> canceled*, failed*, complete*}`
plus the direct edges `queued -> canceled*` and `processing -> failed*`.
Modelled from the spec. -/
def specEdge : Status → Status → Bool
  | .queued, .processing => true
  | .queued, .canceled => true
  | .processing, .cancelling => true
  | .processing, .failed => true
  | .processing, .complete => true
  | .cancelling, .canceled => true
  | _, _ => false

/-- The additional transitions the code produces: the handler's guard
admits `queued -> cancelling`, and the orchestrator's unconditional
writes can overwrite a concurrent `cancelling` (and reach `canceled`
from the overwritten `processing`). -/
def codeExtraEdge : Status → Status → Bool
  | .queued, .cancelling => true
  | .cancelling, .processing => true
  | .cancelling, .failed => true
  | .cancelling, .complete => true
  | .processing, .canceled => true
  | _, _ => false

/-- A transition the combined system can take: a self-loop (repeated
write of the same value), a spec edge, or one of the code's extra
edges. -/
def AllowedStep (a b : Status) : Prop :=
  a = b ∨ specEdge a b = true ∨ codeExtraEdge a b = true

instance (a b : Status) : Decidable (AllowedStep a b) := by
  unfold AllowedStep; infer_instance

/-! ## Concrete environments used by witnesses and counterexamples -/

/-- A fault-free run: both steps succeed, nothing is cancelled, no
exception site fires, the engine writes no raw error text. -/
def envClean : OrchEnv :=
  { setupRaises := false
    preStartFileError := false
    cancelAt1 := false
    dbWarn := false
    dbWarnErrText := ""
    cancelAt2 := false
    configRaises := false
    configErrText := ""
    cancelAt3 := false
    step1Raises := false
    step1ErrText := ""
    step1 := some ⟨true, some "grid_folder", .absent⟩
    fileErrorAfterStep1 := false
    cancelAt4 := false
    step2Raises := false
    step2ErrText := ""
    step2 := some ⟨true, none, .absent⟩
    cancelAt5 := false
    fileErrorBeforeZip := false
    zipRaises := false
    zipErrText := ""
    outputDir := "output/5f0c1d2e" }

/-- A run whose cancellation flag is already set at the early check
(the cancel request arrived while the job was still queued). -/
def envEarlyCancel : OrchEnv :=
  { envClean with cancelAt1 := true }

/-- A run whose first checkpoint returns
`{success: false, errors: ["grid failed"]}`.  The log file at the
after-step-1 rescan contains the `| ERROR | ... | Step 1 failed` line
the job logger just wrote, so the file pattern test is true there. -/
def envGridFail : OrchEnv :=
  { envClean with
    step1 := some ⟨false, none, .plist ["grid failed"]⟩
    fileErrorAfterStep1 := true }

/-- A run in which the pre-`try` setup (logger construction, log-file
discovery, watcher attachment) raises. -/
def envSetupRaise : OrchEnv :=
  { envClean with setupRaises := true }

/-- A run in which resolving the survey-type configuration raises
(caught by the outer handler). -/
def envConfigRaise : OrchEnv :=
  { envClean with configRaises := true, configErrText := "400: bad survey_type" }

/-! ## Shape of the orchestrator's write sequence

Every run writes one or two `processing` values followed by one of four
terminal tails; the interleaving invariant below is preserved by both
writers and pins every transition of every trace. -/

/-- The possible status sequences after the `processing` writes. -/
def TailShape (t : List Status) : Prop :=
  t = [.canceled] ∨ t = [.failed] ∨ t = [.failed, .failed] ∨ t = [.complete]

/-- The invariant tying the stored status to the orchestrator's
remaining writes `rem`: before a terminal write lands the status is
`queued`/`processing`/`cancelling` and `rem` is zero or more
`processing` writes then a terminal tail (at least one write is pending
while the status is still `queued`); after a terminal write lands the
only possibly-pending write is the duplicate `failed` of the
fail-fast-after-step-1 branch. -/
def Inv (db : Status) (rem : List Status) : Prop :=
  match db with
  | .queued =>
    rem = [] ∨ ∃ n t, rem = List.replicate (n + 1) Status.processing ++ t ∧ TailShape t
  | .processing =>
    rem = [] ∨ ∃ n t, rem = List.replicate n Status.processing ++ t ∧ TailShape t
  | .cancelling =>
    rem = [] ∨ ∃ n t, rem = List.replicate n Status.processing ++ t ∧ TailShape t
  | .canceled => rem = []
  | .complete => rem = []
  | .failed => rem = [] ∨ rem = [.failed]

/-- The store driving every attempt into a transient `database is
locked` failure. -/
def allFailStore : Nat → Except String Unit :=
  fun _ => .error "database is locked"

/-- The expected `time.sleep` durations: `k` sleeps of
`backoff * attempt` with `attempt` counting up from `attempt0 + 1`. -/
def linearSleeps (backoff : ℚ) : Nat → Nat → List ℚ
  | _, 0 => []
  | attempt0, k + 1 =>
    backoff * ((attempt0 : ℚ) + 1) :: linearSleeps backoff (attempt0 + 1) k

/-! # Theorems -/

/-! ## Helper lemmas -/

/-- A truthy latched value is kept by a further latch. -/
theorem latchFirst_of_truthy {cur : Option String} (h : pyTruthy cur = true)
    (msg : String) : latchFirst cur msg = cur := by
  unfold latchFirst
  simp [h]

/-- A nonempty latched message is truthy. -/
theorem pyTruthy_some {m : String} (h : m ≠ "") : pyTruthy (some m) = true := by
  simp [pyTruthy, h]

/-- Latching the same nonempty message twice is the same as latching it
once. -/
theorem latchFirst_idem (cur : Option String) {c : String} (hc : c ≠ "") :
    latchFirst (latchFirst cur c) c = latchFirst cur c := by
  unfold latchFirst
  cases cur with
  | none => simp [pyTruthy, hc]
  | some s =>
    by_cases hs : pyTruthy (some s) = true
    · simp [hs]
    · simp [hs, pyTruthy_some hc]

/-- A word-boundary occurrence of `error` is in particular a substring
occurrence in the lowercased text, which is the test the classifier
runs (`"error" in line.lower()`). -/
theorem subOccurs_of_errorWordGo :
    ∀ (l : List Char) (prev : Option Char), containsErrorWordGo prev l = true →
      subOccurs errLower (lowerList l) = true := by
  intro l
  induction l with
  | nil => intro prev h; simp [containsErrorWordGo] at h
  | cons c rest ih =>
    intro prev h
    simp only [containsErrorWordGo, Bool.or_eq_true] at h
    rcases h with h | h
    · simp only [errorWordAt, Bool.and_eq_true] at h
      have hpfx := h.1.1
      rw [show lowerList (c :: rest) = c.toLower :: lowerList rest from rfl] at hpfx ⊢
      simp [subOccurs, hpfx]
    · have h2 := ih (some c) h
      rw [show lowerList (c :: rest) = c.toLower :: lowerList rest from rfl]
      simp [subOccurs, h2]

/-- The classifier's raw-line check holds whenever the watcher's
word-boundary check does. -/
theorem subOccurs_of_containsErrorWord {s : String}
    (h : containsErrorWord s = true) :
    subOccurs errLower (lowerList s.toList) = true :=
  subOccurs_of_errorWordGo s.toList none h

/-- When the watcher is already latched with a truthy message,
`_abort_if_error` aborts with the prefixed fail-fast message whatever
the file rescan finds. -/
theorem abortIfError_truthy (st : Option String) (h : pyTruthy st = true)
    (b : Bool) (pfx : String) :
    abortIfError st b pfx
      = (runEmit st 40 (pfx ++ "Fail-fast due to error in logs: " ++ st.getD ""),
         some (pfx ++ "Fail-fast due to error in logs: " ++ st.getD "")) := by
  unfold abortIfError runScan
  cases b
  · simp [h]
  · simp [latchFirst_of_truthy h, h]

/-! ## Claim C4 — fail-fast watcher latch dynamics

The claim fails as stated: `emit` records the latched message with
Python's `or`, under which an empty string is falsy, so a detection
whose message is empty (an ERROR-level record logged with an empty
message) is recorded but then replaced by the next detection.  For a
nonempty first message the claim's properties all hold. -/

/-- C4 counterexample: after an ERROR-severity event with the empty
message latches the watcher (`error_message` becomes `""`, no longer
`None`), a later detection replaces the recorded message, so the first
detected message is not retained. -/
theorem c4_counterexample :
    (watchStep (watcherInit true true) (.emit 40 "")).errorMsg = some "" ∧
    (watchStep (watchStep (watcherInit true true) (.emit 40 ""))
        (.emit 40 "second failure")).errorMsg = some "second failure" := by
  constructor <;> decide

/-- C4 (amended): once a nonempty message is latched no later logger
event or rescan changes it; `scan_file_once` is idempotent for any
fixed read outcome; and an I/O error during `scan_file_once` is
swallowed, leaving the watcher (in particular its latch) unchanged. -/
theorem c4_amended :
    (∀ (w : FailFastLogWatcher) (m : String) (e : WatchEvent),
        w.errorMsg = some m → m ≠ "" → (watchStep w e).errorMsg = some m) ∧
    (∀ (w : FailFastLogWatcher) (r : ScanRead),
        watchStep (watchStep w (.scan r)) (.scan r) = watchStep w (.scan r)) ∧
    (∀ w : FailFastLogWatcher, watchStep w (.scan .ioError) = w) := by
  refine ⟨?_, ?_, ?_⟩
  · intro w m e hm hne
    have htr : pyTruthy (some m) = true := pyTruthy_some hne
    cases e with
    | emit levelno msg =>
      simp only [watchStep, watcherEmitEvent]
      split
      · simp [hm, latchFirst_of_truthy htr]
      · exact hm
    | scan r =>
      cases r with
      | ioError =>
        simp only [watchStep, watcherScanFileOnce]
        split
        · exact hm
        · exact hm
      | content txt =>
        simp only [watchStep, watcherScanFileOnce]
        split
        · exact hm
        · split
          · simp [hm, latchFirst_of_truthy htr]
          · exact hm
  · intro w r
    cases r with
    | ioError =>
      simp only [watchStep, watcherScanFileOnce]
      split <;> rfl
    | content txt =>
      simp only [watchStep, watcherScanFileOnce]
      by_cases hp : (!w.pollFile || !w.hasLogFile) = true
      · simp [hp]
      · by_cases hd : (matchesArcgisErr txt || containsErrorWord txt) = true
        · simp [hp, hd, latchFirst_idem w.errorMsg (by decide :
            "Error detected in log file" ≠ "")]
        · simp [hp, hd]
  · intro w
    simp only [watchStep, watcherScanFileOnce]
    split <;> rfl

/-- C4 witness: the amended theorem applied to a watcher latched with a
concrete nonempty message and a later ERROR event. -/
theorem c4_witness :
    (watchStep ⟨true, true, some "first failure"⟩
      (.emit 40 "second failure")).errorMsg = some "first failure" :=
  c4_amended.1 ⟨true, true, some "first failure"⟩ "first failure"
    (.emit 40 "second failure") rfl (by decide)

/-! ## Claim C2 — the status-store retry loop

The loop never raises (its result type carries no exception), performs
at most `retries` write attempts, and swallows the failure exactly when
the cap is exhausted — all as claimed.  But the backoff is
`time.sleep(backoff * attempt)`: an arithmetic progression
`0.25, 0.5, 0.75, 1.0, 1.25`, not the claimed exponential backoff. -/

/-- Behaviour of the retry loop from any failure count below the cap:
at least one and at most `retries - attempt` attempts are made, the
failure is swallowed only when the cap is exhausted, and the sleeps are
`backoff * n` for the successive values of the attempt counter. -/
theorem updateStatusSafeGo_spec (store : Nat → Except String Unit) (backoff : ℚ) :
    ∀ (fuel retries attempt : Nat), retries - attempt ≤ fuel → attempt < retries →
      1 ≤ (updateStatusSafeGo store retries backoff attempt fuel).attempts ∧
      (updateStatusSafeGo store retries backoff attempt fuel).attempts
        ≤ retries - attempt ∧
      ((updateStatusSafeGo store retries backoff attempt fuel).committed = false →
        (updateStatusSafeGo store retries backoff attempt fuel).attempts
          = retries - attempt) ∧
      (updateStatusSafeGo store retries backoff attempt fuel).sleeps
        = linearSleeps backoff attempt
            ((updateStatusSafeGo store retries backoff attempt fuel).attempts - 1) := by
  intro fuel
  induction fuel with
  | zero => intro retries attempt hf hlt; omega
  | succ fuel ih =>
    intro retries attempt hf hlt
    simp only [updateStatusSafeGo]
    cases hs : store attempt with
    | ok u =>
      simp only [hs]
      exact ⟨le_refl _, by show 1 ≤ retries - attempt; omega,
        fun hc => absurd hc (by decide), rfl⟩
    | error e =>
      simp only [hs]
      by_cases hcap : retries ≤ attempt + 1
      · have hra : retries - attempt = 1 := by omega
        simp [hcap, hra, linearSleeps]
      · have h1 : retries - (attempt + 1) ≤ fuel := by omega
        have h2 : attempt + 1 < retries := by omega
        obtain ⟨ia, ib, ic, isl⟩ := ih retries (attempt + 1) h1 h2
        simp only [hcap, if_false]
        refine ⟨by show 1 ≤ _ + 1; omega, by show _ + 1 ≤ retries - attempt; omega,
          ?_, ?_⟩
        · intro hc
          show _ + 1 = retries - attempt
          have := ic hc
          omega
        · show backoff * ((attempt : ℚ) + 1) :: _ = linearSleeps backoff attempt (_ + 1 - 1)
          rw [show (updateStatusSafeGo store retries backoff (attempt + 1) fuel).attempts
                + 1 - 1
              = ((updateStatusSafeGo store retries backoff (attempt + 1) fuel).attempts
                - 1) + 1 by omega]
          rw [linearSleeps]
          exact congrArg _ isl

/-- The sleeps of the loop, in closed form. -/
theorem linearSleeps_range (backoff : ℚ) :
    ∀ (k attempt0 : Nat), linearSleeps backoff attempt0 k
      = (List.range k).map (fun i => backoff * (((attempt0 + i + 1 : Nat) : ℚ))) := by
  intro k
  induction k with
  | zero => intro a; simp [linearSleeps]
  | succ k ih =>
    intro a
    rw [linearSleeps, ih (a + 1), List.range_succ_eq_map, List.map_cons, List.map_map]
    refine congrArg₂ _ (by push_cast; ring) ?_
    refine List.map_congr_left ?_
    intro i _
    simp only [Function.comp]
    have hn : a + 1 + i + 1 = a + i.succ + 1 := by omega
    rw [hn]

/-- C2 (amended): for every sequence of store errors the update
operation returns normally (it is a total function into an
exception-free result), makes at least one and at most six write
attempts, swallows the failure exactly when all six fail, and sleeps a
bounded, linearly increasing backoff of `0.25 * n` seconds after the
`n`-th failed attempt, each sleep at most `1.25` seconds. -/
theorem c2_amended (store : Nat → Except String Unit) :
    1 ≤ (update_status_safe store).attempts ∧
    (update_status_safe store).attempts ≤ 6 ∧
    ((update_status_safe store).committed = false →
      (update_status_safe store).attempts = 6) ∧
    (update_status_safe store).sleeps
      = (List.range ((update_status_safe store).attempts - 1)).map
          (fun i => (1 / 4 : ℚ) * (((i + 1 : Nat) : ℚ))) ∧
    (∀ q ∈ (update_status_safe store).sleeps, q ≤ 5 / 4) := by
  simp only [update_status_safe]
  obtain ⟨h1, h2, h3, h4⟩ :=
    updateStatusSafeGo_spec store (1 / 4) 6 6 0 (by omega) (by omega)
  rw [linearSleeps_range] at h4
  simp only [Nat.zero_add] at h4
  refine ⟨h1, by omega, fun hc => by have := h3 hc; omega, h4, ?_⟩
  intro q hq
  rw [h4] at hq
  simp only [List.mem_map, List.mem_range] at hq
  obtain ⟨i, hi, rfl⟩ := hq
  have hi5 : i + 1 ≤ 5 := by omega
  have hle : ((i : ℚ) + 1) ≤ 5 := by exact_mod_cast hi5
  push_cast
  linarith

/-- C2 counterexample: with every attempt failing on store contention,
the sleep sequence is the arithmetic progression
`0.25, 0.5, 0.75, 1.0, 1.25`, which is not a geometric (exponential)
progression: its first two ratios already differ. -/
theorem c2_counterexample :
    (update_status_safe allFailStore).sleeps = [1 / 4, 1 / 2, 3 / 4, 1, 5 / 4] ∧
    ¬ GeometricBackoff (update_status_safe allFailStore).sleeps := by
  have hs : (update_status_safe allFailStore).sleeps
      = [1 / 4, 1 / 2, 3 / 4, 1, 5 / 4] := by
    simp only [update_status_safe, updateStatusSafeGo, allFailStore]
    norm_num
  refine ⟨hs, ?_⟩
  rw [hs]
  rintro ⟨r, h⟩
  simp only [List.chain'_cons, List.chain'_singleton, and_true] at h
  obtain ⟨h1, h2, -⟩ := h
  have hr : r = 2 := by linarith
  rw [hr] at h2
  norm_num at h2

/-- C2 witness: the amended theorem at the always-failing store — the
cap is exhausted, the failure is swallowed after six attempts. -/
theorem c2_witness :
    (update_status_safe allFailStore).attempts = 6 :=
  (c2_amended allFailStore).2.2.1 (by
    simp [update_status_safe, updateStatusSafeGo, allFailStore])

/-! ## Claim C9 — collection with no candidate log files

The claim fails for a missing logs directory: `collect_logs_grouped_all`
returns the empty view built at the top of the function before the
`note` is ever set, so `note` is `None` there; the explanatory note
`"No log files found"` is produced only when the directory exists but
contains no `*.txt`/`*.log` file. -/

/-- C9 counterexample: when the job's logs directory does not exist the
result is empty with `note = None`, not a non-empty explanatory note. -/
theorem c9_counterexample :
    collect_logs_grouped_all .missing 50 "2025-01-02T00:00:00"
      = ⟨[], [], [], none⟩ := rfl

/-- C9 (amended): with no candidate log files the collection returns an
empty result and does not raise (it is a total function); the
explanatory non-empty note `"No log files found"` is attached exactly
when the directory exists but holds no candidate file, while a missing
directory yields the empty view with no note. -/
theorem c9_amended (maxFiles : Nat) (nowIso : String) :
    collect_logs_grouped_all .missing maxFiles nowIso = ⟨[], [], [], none⟩ ∧
    collect_logs_grouped_all (.present []) maxFiles nowIso
      = ⟨[], [], [], some "No log files found"⟩ ∧
    "No log files found" ≠ "" := by
  exact ⟨rfl, rfl, by decide⟩

/-- C9 witness: the amended theorem at the default file cap and a
concrete collection time. -/
theorem c9_witness :
    collect_logs_grouped_all (.present []) 50 "2025-01-02T00:00:00"
      = ⟨[], [], [], some "No log files found"⟩ :=
  (c9_amended 50 "2025-01-02T00:00:00").2.1

/-! ## Claim C7 — continuation merging -/

/-- The two-line log file of the claim's round-trip scenario. -/
def c7File : LogFile :=
  ⟨"log_1.txt", "2025-01-02T00:00:00",
   ["2025-01-01 00:00:00,000 | INFO | x | hello", "continued"], none⟩

/-- C7: the structured INFO line followed by the unmatched, non-blank
line `continued` yields a single INFO entry whose message is
`"hello\ncontinued"` — the continuation is newline-joined onto the
preceding entry instead of creating a new one.  (The logger capture
group `[^|]+` of `RE_PIPE` is greedy up to the next pipe, so it keeps
the trailing space of `" x "`.) -/
theorem c7 :
    collect_logs_grouped_all (.present [c7File]) 50 "2025-01-02T00:00:01"
      = ⟨[⟨"2025-01-01 00:00:00,000", "INFO", "x ", "hello\ncontinued",
           some "log_1.txt"⟩], [], [], none⟩ := by
  decide

/-! ## Claim C8 — raw error promotion -/

/-- C8: a line matching neither grammar, non-blank, and containing the
word `error` case-insensitively becomes an ERROR-bucket entry with
source `raw` and the raw line as message — before the `warning` check
and before continuation merging, whatever entries precede it. -/
theorem c8 (fileName fileHintTs : String) (entries : List (Bucket × LogEntry))
    (line : String)
    (hparse : parseStructuredLine line = none)
    (hblank : pyBlank line.toList = false)
    (hword : containsErrorWord line = true) :
    classifyLine fileName fileHintTs entries line
      = entries ++ [(.error, ⟨fileHintTs, "ERROR", "raw", line, some fileName⟩)] := by
  unfold classifyLine
  rw [hparse]
  have hblank' : pyBlank line.data = false := hblank
  have hsub : subOccurs errLower (lowerList line.data) = true :=
    subOccurs_of_containsErrorWord hword
  simp [hblank', hsub]

/-- C8 witness: a concrete raw engine line. -/
theorem c8_witness :
    classifyLine "engine.log" "2025-01-02T00:00:00" [] "Tool error: failure in clip"
      = [(.error, ⟨"2025-01-02T00:00:00", "ERROR", "raw", "Tool error: failure in clip",
          some "engine.log"⟩)] := by
  have h := c8 "engine.log" "2025-01-02T00:00:00" [] "Tool error: failure in clip"
    (by decide) (by decide) (by decide)
  simpa using h

/-! ## Claim C6 — cancelling an unknown or finished job -/

/-- C6: with no registered token, `cancel_job` returns the not-found
error when the job has no stored record, and otherwise reports the
job's last known status while leaving both the store and the registry
untouched; and the registry-level `signal` on an unknown id returns
`false` without raising (all operations are total functions). -/
theorem c6 (reg : Registry) (db : List JobRecord) (jid now : String)
    (hreg : lookupEvent reg jid = none) :
    (dbFind db jid = none → cancel_job reg db jid now = (.notFound, db, reg)) ∧
    (∀ rec, dbFind db jid = some rec →
      cancel_job reg db jid now = (.notRunning rec.status, db, reg)) ∧
    signalToken reg jid = (false, reg) := by
  refine ⟨?_, ?_, ?_⟩
  · intro hdb
    unfold cancel_job
    rw [hreg, hdb]
  · intro rec hdb
    unfold cancel_job
    rw [hreg, hdb]
  · unfold signalToken
    rw [hreg]

/-- C6 witness: a store holding one completed job; cancelling an
unknown id is not-found, cancelling the completed job reports its last
status without modifying the record. -/
theorem c6_witness :
    cancel_job [] [⟨"job-1", .complete, "t0", "t1", none, "output/job-1", none⟩]
        "job-2" "t2"
      = (.notFound, [⟨"job-1", .complete, "t0", "t1", none, "output/job-1", none⟩], []) ∧
    cancel_job [] [⟨"job-1", .complete, "t0", "t1", none, "output/job-1", none⟩]
        "job-1" "t2"
      = (.notRunning .complete,
         [⟨"job-1", .complete, "t0", "t1", none, "output/job-1", none⟩], []) :=
  ⟨(c6 [] [⟨"job-1", .complete, "t0", "t1", none, "output/job-1", none⟩] "job-2" "t2"
      rfl).1 rfl,
   (c6 [] [⟨"job-1", .complete, "t0", "t1", none, "output/job-1", none⟩] "job-1" "t2"
      rfl).2.1 ⟨"job-1", .complete, "t0", "t1", none, "output/job-1", none⟩ rfl⟩

/-! ## Claim C10 — the frame of a status write -/

/-- Every `complete` status write the orchestrator makes (the one on
the success path) carries `error=None`: step tail. -/
theorem tailWrites_complete_error_none (env : OrchEnv) (st : Option String)
    (w : StatusWrite) (hw : w ∈ (tailWrites env st).1)
    (hc : w.status = .complete) : w.error = none := by
  unfold tailWrites at hw
  repeat' split at hw
  all_goals
    simp only [List.mem_cons, List.mem_singleton, List.not_mem_nil, or_false] at hw
  all_goals rcases hw with rfl | rfl
  all_goals first
    | rfl
    | simp at hc

/-- Every `complete` status write the orchestrator makes carries
`error=None`: whole run. -/
theorem run_complete_error_none (env : OrchEnv) (w : StatusWrite)
    (hw : w ∈ (run_survey_mapper env).writes) (hc : w.status = .complete) :
    w.error = none := by
  unfold run_survey_mapper at hw
  split at hw
  · simp at hw
  · simp only [bodyWrites] at hw
    split at hw
    · simp only [List.mem_cons, List.not_mem_nil, or_false] at hw
      rcases hw with rfl | rfl <;> simp at hc
    · split at hw
      · simp only [List.mem_cons, List.not_mem_nil, or_false] at hw
        rcases hw with rfl | rfl <;> simp at hc
      · simp only [List.cons_append, List.mem_cons, List.mem_append] at hw
        rcases hw with rfl | hw | hw
        · simp at hc
        · split at hw
          · simp only [List.mem_singleton] at hw
            subst hw
            simp at hc
          · simp at hw
        · exact tailWrites_complete_error_none env _ w hw hc

/-- The first status write of every run that writes at all is the
`processing` write with `error=None` at the top of the `try` block. -/
theorem run_head_processing (env : OrchEnv) (w : StatusWrite)
    (hw : (run_survey_mapper env).writes.head? = some w) :
    w = ⟨.processing, none⟩ := by
  unfold run_survey_mapper at hw
  split at hw
  · simp at hw
  · simp only [bodyWrites] at hw
    split at hw
    · simp at hw
      exact hw.symm
    · split at hw
      · simp at hw
        exact hw.symm
      · simp at hw
        exact hw.symm

/-- C10: a successful status-store write sets `error` to exactly the
value passed for that call (`None` when omitted) and refreshes `status`
and `updated_at`, leaving `created_at`, `output_dir`, `result_zip_path`
and the key unchanged; a later write that omits `error` — in the
orchestrator, the `complete` write and the initial `processing` write
both pass `error=None` — therefore erases any previously recorded error
text. -/
theorem c10 (rec : JobRecord) (jid : String) (s : Status) (now : String)
    (e : Option String) (h : rec.job_id = jid) :
    (applyStatusUpdate rec jid s now e).error = e ∧
    (applyStatusUpdate rec jid s now e).status = s ∧
    (applyStatusUpdate rec jid s now e).updated_at = now ∧
    (applyStatusUpdate rec jid s now e).created_at = rec.created_at ∧
    (applyStatusUpdate rec jid s now e).output_dir = rec.output_dir ∧
    (applyStatusUpdate rec jid s now e).result_zip_path = rec.result_zip_path ∧
    (applyStatusUpdate rec jid s now e).job_id = rec.job_id ∧
    (∀ now2, (applyStatusUpdate (applyStatusUpdate rec jid s now e) jid
        .complete now2 none).error = none) ∧
    (∀ env w, w ∈ (run_survey_mapper env).writes → w.status = .complete →
      w.error = none) ∧
    (∀ env w, (run_survey_mapper env).writes.head? = some w →
      w = ⟨.processing, none⟩) := by
  unfold applyStatusUpdate
  simp only [h, if_pos rfl]
  refine ⟨rfl, rfl, rfl, rfl, rfl, rfl, rfl, ?_, ?_, ?_⟩
  · intro now2
    simp
  · exact fun env w => run_complete_error_none env w
  · exact fun env w => run_head_processing env w

/-- C10 witness: a record holding an earlier error is overwritten by a
`complete` write that omits the error argument; the other columns are
untouched. -/
theorem c10_witness :
    (applyStatusUpdate
        ⟨"job-7", .processing, "t0", "t1", some "earlier failure", "output/job-7", none⟩
        "job-7" .complete "t2" none).error = none ∧
    (applyStatusUpdate
        ⟨"job-7", .processing, "t0", "t1", some "earlier failure", "output/job-7", none⟩
        "job-7" .complete "t2" none).output_dir = "output/job-7" :=
  ⟨(c10 ⟨"job-7", .processing, "t0", "t1", some "earlier failure", "output/job-7", none⟩
      "job-7" .complete "t2" none rfl).1,
   (c10 ⟨"job-7", .processing, "t0", "t1", some "earlier failure", "output/job-7", none⟩
      "job-7" .complete "t2" none rfl).2.2.2.2.1⟩

/-! ## Claim C5 — top-level exception handling and cleanup

The claim fails as stated: the statements before the `try` block
(`build_job_logger`, discovery of the newest log file, watcher
construction and attachment, lines 652-660) run inside the background
task but outside the handler, so an exception there propagates out of
the run, no `failed` status is recorded, and the `finally` block that
pops the job's token from `RUNNING_JOBS` never executes — the registry
keeps an entry for the terminated job.  For exceptions raised inside
the `try` block the claim's properties hold. -/

/-- C5 counterexample: a run whose setup preamble raises escapes the
background task with no status write and without unregistering the
cancellation token. -/
theorem c5_counterexample :
    (run_survey_mapper envSetupRaise).raisedOut = true ∧
    (run_survey_mapper envSetupRaise).unregistered = false ∧
    (run_survey_mapper envSetupRaise).writes = [] := by
  decide

/-- C5 (amended): when the setup preamble does not raise, no exception
escapes the run and the `finally` block always unregisters the job's
token, whatever else happens; exceptions raised inside the `try` block
— at configuration resolution, inside the first step, or inside the
second step — are caught and recorded as a final `failed` write
carrying the exception text.  When the setup preamble raises, the
exception propagates and the token is never unregistered. -/
theorem c5_amended (env : OrchEnv) :
    (env.setupRaises = false →
      (run_survey_mapper env).raisedOut = false ∧
      (run_survey_mapper env).unregistered = true) ∧
    (env.setupRaises = true →
      (run_survey_mapper env).raisedOut = true ∧
      (run_survey_mapper env).unregistered = false ∧
      (run_survey_mapper env).writes = []) ∧
    (env.setupRaises = false → env.preStartFileError = false → env.cancelAt1 = false →
      env.cancelAt2 = false → env.configRaises = true →
      (run_survey_mapper env).writes.getLast?
        = some ⟨.failed, some env.configErrText⟩) ∧
    (env.setupRaises = false → env.preStartFileError = false → env.cancelAt1 = false →
      env.cancelAt2 = false → env.configRaises = false → env.cancelAt3 = false →
      env.step1Raises = true →
      (run_survey_mapper env).writes.getLast?
        = some ⟨.failed, some env.step1ErrText⟩) ∧
    (env.setupRaises = false → env.preStartFileError = false → env.cancelAt1 = false →
      env.cancelAt2 = false → env.configRaises = false → env.cancelAt3 = false →
      env.step1Raises = false → step1Success env = true → env.cancelAt4 = false →
      env.step2Raises = true →
      (run_survey_mapper env).writes.getLast?
        = some ⟨.failed, some env.step2ErrText⟩) := by
  refine ⟨?_, ?_, ?_, ?_, ?_⟩
  · intro h0
    simp [run_survey_mapper, h0]
  · intro h0
    simp [run_survey_mapper, h0]
  · intro h0 h1 h2 h4 h5
    simp only [run_survey_mapper, h0, Bool.false_eq_true, if_false]
    simp only [bodyWrites, h1]
    rw [show abortIfError (runEmit none 20 "Job started") false "pre-start: "
        = (none, none) from rfl]
    simp only [h2, Bool.false_eq_true, if_false]
    simp only [tailWrites, h4, h5, Bool.false_eq_true, if_false, if_true]
    cases hdb : env.dbWarn <;> simp
  · intro h0 h1 h2 h4 h5 h6 h7
    simp only [run_survey_mapper, h0, Bool.false_eq_true, if_false]
    simp only [bodyWrites, h1]
    rw [show abortIfError (runEmit none 20 "Job started") false "pre-start: "
        = (none, none) from rfl]
    simp only [h2, Bool.false_eq_true, if_false]
    simp only [tailWrites, h4, h5, h6, h7, Bool.false_eq_true, if_false, if_true]
    cases hdb : env.dbWarn <;> simp
  · intro h0 h1 h2 h4 h5 h6 h7 h8 h9 h10
    simp only [run_survey_mapper, h0, Bool.false_eq_true, if_false]
    simp only [bodyWrites, h1]
    rw [show abortIfError (runEmit none 20 "Job started") false "pre-start: "
        = (none, none) from rfl]
    simp only [h2, Bool.false_eq_true, if_false]
    simp only [tailWrites, h4, h5, h6, h7, h8, h9, h10, Bool.not_true,
      Bool.false_eq_true, if_false, if_true]
    cases hdb : env.dbWarn <;> simp

/-- C5 witness: the amended theorem at the configuration-failure run —
nothing escapes, the token is unregistered, and the final write is
`failed` with the exception text. -/
theorem c5_witness :
    (run_survey_mapper envConfigRaise).writes.getLast?
      = some ⟨.failed, some "400: bad survey_type"⟩ ∧
    (run_survey_mapper envConfigRaise).unregistered = true :=
  ⟨(c5_amended envConfigRaise).2.2.1 rfl rfl rfl rfl rfl,
   ((c5_amended envConfigRaise).1 rfl).2⟩

/-! ## Claim C3 — first-checkpoint failure

The claim fails in its error-text part: when step 1 reports failure the
code records the fixed text `"Grid processing failed"` — the step's own
`errors` list is never read for step 1 (only step 2's list is joined) —
and the subsequent `_abort_if_error("after step1: ")` rescan overwrites
it with the fail-fast message built from the latched
`"Step 1 failed"` log record.  Neither text contains `"grid failed"`.
The rest of the claim holds: the run ends `failed` and the second
checkpoint is never invoked. -/

/-- C3 counterexample: a job whose first checkpoint returns
`{success: false, errors: ["grid failed"]}` ends with the two `failed`
writes whose texts do not contain `"grid failed"`, and step 2 is never
invoked. -/
theorem c3_counterexample :
    (run_survey_mapper envGridFail).writes
      = [⟨.processing, none⟩, ⟨.failed, some "Grid processing failed"⟩,
         ⟨.failed, some "after step1: Fail-fast due to error in logs: Step 1 failed"⟩] ∧
    (run_survey_mapper envGridFail).step2Invoked = false ∧
    containsSub "grid failed" "Grid processing failed" = false ∧
    containsSub "grid failed"
      "after step1: Fail-fast due to error in logs: Step 1 failed" = false := by
  decide

/-- C3 (amended): for every run reaching the first checkpoint cleanly
whose step-1 result is unsuccessful, the final status is `failed` and
the second checkpoint is never invoked, but the recorded error is the
fixed `"Grid processing failed"`, immediately overwritten by
`"after step1: Fail-fast due to error in logs: Step 1 failed"`; the
step's own error list is ignored. -/
theorem c3_amended (env : OrchEnv)
    (h0 : env.setupRaises = false) (h1 : env.preStartFileError = false)
    (h2 : env.cancelAt1 = false) (h3 : env.dbWarn = false)
    (h4 : env.cancelAt2 = false) (h5 : env.configRaises = false)
    (h6 : env.cancelAt3 = false) (h7 : env.step1Raises = false)
    (h8 : step1Success env = false) :
    (run_survey_mapper env).step2Invoked = false ∧
    (run_survey_mapper env).writes
      = [⟨.processing, none⟩, ⟨.failed, some "Grid processing failed"⟩,
         ⟨.failed, some "after step1: Fail-fast due to error in logs: Step 1 failed"⟩] := by
  simp only [run_survey_mapper, h0, Bool.false_eq_true, if_false]
  simp only [bodyWrites, h1]
  rw [show abortIfError (runEmit none 20 "Job started") false "pre-start: "
      = (none, none) from rfl]
  simp only [h2, h3, Bool.false_eq_true, if_false]
  simp only [tailWrites, h4, h5, h6, h7, h8, Bool.not_false, Bool.false_eq_true,
    if_false, if_true]
  rw [show runEmit (runEmit none 20 "Step 1: process grid and clipping - start") 40
        "Step 1 failed" = some "Step 1 failed" from rfl]
  rw [abortIfError_truthy (some "Step 1 failed") (by decide)]
  simp

/-- C3 witness: the amended theorem at the concrete grid-failure run. -/
theorem c3_witness :
    (run_survey_mapper envGridFail).step2Invoked = false ∧
    (run_survey_mapper envGridFail).writes
      = [⟨.processing, none⟩, ⟨.failed, some "Grid processing failed"⟩,
         ⟨.failed, some "after step1: Fail-fast due to error in logs: Step 1 failed"⟩] :=
  c3_amended envGridFail rfl rfl rfl rfl rfl rfl rfl rfl rfl

/-! ## Claim C1 — the status transition graph under interleaving

The claim fails as stated: the cancellation handler's guard
`status IN ('queued','processing')` writes `cancelling` from `queued`,
which is not an edge of the §4.5 graph; and because the orchestrator's
writes never check the current status, they can overwrite a concurrent
`cancelling` (giving `cancelling -> processing/failed/complete` and
`processing -> canceled`).  What does hold, for every environment and
every interleaving: each transition is a spec edge, a self-loop, or one
of those five extra edges — and in particular no write ever moves a job
out of a terminal state. -/

/-- The statuses of the orchestrator's writes after its `processing`
writes form one of the four terminal tails. -/
theorem tailWrites_shape (env : OrchEnv) (st : Option String) :
    TailShape ((tailWrites env st).1.map StatusWrite.status) := by
  unfold tailWrites
  repeat' split
  all_goals simp [TailShape]

/-- Every body write-sequence is one or two `processing` writes
followed by a terminal tail. -/
theorem bodyWrites_shape (env : OrchEnv) :
    ∃ n t, (bodyWrites env).1.map StatusWrite.status
      = List.replicate (n + 1) Status.processing ++ t ∧ TailShape t := by
  unfold bodyWrites
  rcases habort : abortIfError (runEmit none 20 "Job started") env.preStartFileError
      "pre-start: " with ⟨st1, mo⟩
  cases mo with
  | some m =>
    exact ⟨0, [.failed], by simp [List.replicate], by simp [TailShape]⟩
  | none =>
    by_cases hc1 : env.cancelAt1 = true
    · simp only [hc1, if_true]
      exact ⟨0, [.canceled], by simp [List.replicate], by simp [TailShape]⟩
    · simp only [hc1, if_false]
      by_cases hdb : env.dbWarn = true
      · exact ⟨1,
          List.map StatusWrite.status (tailWrites env
            (runEmit (runEmit st1 20 "Attempting database fetch for LUTAssetTypes") 30
              (dbWarnMsg env))).1,
          by simp [hdb, List.replicate_succ],
          tailWrites_shape env _⟩
      · exact ⟨0,
          List.map StatusWrite.status (tailWrites env st1).1,
          by simp [hdb, List.replicate_succ],
          tailWrites_shape env _⟩

/-- The invariant holds initially: the job is `queued` and the
orchestrator has its whole write sequence ahead of it. -/
theorem inv_init (env : OrchEnv) : Inv .queued (orchStatusWrites env) := by
  unfold orchStatusWrites run_survey_mapper
  split
  · exact Or.inl rfl
  · exact Or.inr (bodyWrites_shape env)

/-- A cancellation write preserves the invariant. -/
theorem inv_cancel (db : Status) (rem : List Status) (h : Inv db rem) :
    Inv (cancelWrite db) rem := by
  cases db with
  | queued =>
    rcases h with h | ⟨n, t, heq, ht⟩
    · exact Or.inl h
    · exact Or.inr ⟨n + 1, t, heq, ht⟩
  | processing => exact h
  | cancelling => exact h
  | canceled => exact h
  | failed => exact h
  | complete => exact h

/-- A cancellation write is always an allowed transition. -/
theorem allowed_cancel (db : Status) : AllowedStep db (cancelWrite db) := by
  cases db <;> decide

/-- An orchestrator write consumes the head of the remaining sequence,
takes an allowed transition, and preserves the invariant. -/
theorem inv_orch (db s : Status) (rem' : List Status)
    (h : Inv db (s :: rem')) : AllowedStep db s ∧ Inv s rem' := by
  cases db with
  | queued =>
    rcases h with h | ⟨n, t, heq, ht⟩
    · exact absurd h (List.cons_ne_nil s rem')
    · rw [List.replicate_succ, List.cons_append] at heq
      injection heq with hs hrem
      subst hs
      exact ⟨by decide, Or.inr ⟨n, t, hrem, ht⟩⟩
  | processing =>
    rcases h with h | ⟨n, t, heq, ht⟩
    · exact absurd h (List.cons_ne_nil s rem')
    · cases n with
      | zero =>
        rw [show List.replicate 0 Status.processing ++ t = t from by simp] at heq
        rcases ht with rfl | rfl | rfl | rfl
        · injection heq with hs hrem
          subst hs; subst hrem
          exact ⟨by decide, rfl⟩
        · injection heq with hs hrem
          subst hs; subst hrem
          exact ⟨by decide, Or.inl rfl⟩
        · injection heq with hs hrem
          subst hs; subst hrem
          exact ⟨by decide, Or.inr rfl⟩
        · injection heq with hs hrem
          subst hs; subst hrem
          exact ⟨by decide, rfl⟩
      | succ n =>
        rw [List.replicate_succ, List.cons_append] at heq
        injection heq with hs hrem
        subst hs
        exact ⟨by decide, Or.inr ⟨n, t, hrem, ht⟩⟩
  | cancelling =>
    rcases h with h | ⟨n, t, heq, ht⟩
    · exact absurd h (List.cons_ne_nil s rem')
    · cases n with
      | zero =>
        rw [show List.replicate 0 Status.processing ++ t = t from by simp] at heq
        rcases ht with rfl | rfl | rfl | rfl
        · injection heq with hs hrem
          subst hs; subst hrem
          exact ⟨by decide, rfl⟩
        · injection heq with hs hrem
          subst hs; subst hrem
          exact ⟨by decide, Or.inl rfl⟩
        · injection heq with hs hrem
          subst hs; subst hrem
          exact ⟨by decide, Or.inr rfl⟩
        · injection heq with hs hrem
          subst hs; subst hrem
          exact ⟨by decide, rfl⟩
      | succ n =>
        rw [List.replicate_succ, List.cons_append] at heq
        injection heq with hs hrem
        subst hs
        exact ⟨by decide, Or.inr ⟨n, t, hrem, ht⟩⟩
  | failed =>
    rcases h with h | h
    · exact absurd h (List.cons_ne_nil s rem')
    · injection h with hs hrem
      subst hs; subst hrem
      exact ⟨by decide, Or.inl rfl⟩
  | canceled => exact absurd h (List.cons_ne_nil s rem')
  | complete => exact absurd h (List.cons_ne_nil s rem')

/-- The head of a trace is its start state. -/
theorem traceFrom_head (s : Status) (ops : List Op) :
    (traceFrom s ops).head? = some s := by
  cases ops <;> rfl

/-- Every transition of every trace of a valid schedule is allowed:
the inductive core of claim C1. -/
theorem chain_aux :
    ∀ (ops : List Op) (db : Status) (rem : List Status), Inv db rem →
      ops.filterMap orchOf = rem → List.Chain' AllowedStep (traceFrom db ops) := by
  intro ops
  induction ops with
  | nil => intro db rem _ _; simp [traceFrom]
  | cons op rest ih =>
    intro db rem hinv hfil
    cases op with
    | cancel =>
      simp only [List.filterMap_cons, orchOf] at hfil
      refine List.chain'_cons'.mpr ⟨?_, ih (cancelWrite db) rem (inv_cancel db rem hinv) hfil⟩
      intro y hy
      rw [traceFrom_head] at hy
      cases hy
      exact allowed_cancel db
    | orch s =>
      simp only [List.filterMap_cons, orchOf] at hfil
      subst hfil
      obtain ⟨hstep, hinv'⟩ := inv_orch db s _ hinv
      refine List.chain'_cons'.mpr ⟨?_, ih s _ hinv' rfl⟩
      intro y hy
      rw [traceFrom_head] at hy
      cases hy
      exact hstep

/-- An allowed transition never leaves a terminal state. -/
theorem allowed_terminal :
    ∀ a b : Status, AllowedStep a b → a.isTerminal = true → a = b := by
  intro a b
  cases a <;> cases b <;> decide

/-- C1 (amended): for every run environment and every interleaving of
the orchestrator's status writes with cancellation-handler writes, each
transition of the stored-status trace is an edge of the §4.5 graph, a
self-loop, or one of the code's extra edges `queued -> cancelling`,
`cancelling -> processing/failed/complete`, `processing -> canceled`
(the handler guard admits `queued`, and the orchestrator's writes do
not check the current status); and no write ever moves a job out of a
terminal state. -/
theorem c1_amended (env : OrchEnv) (ops : List Op) (h : ValidSchedule env ops) :
    List.Chain' AllowedStep (traceFrom .queued ops) ∧
    List.Chain' (fun a b => a.isTerminal = true → a = b) (traceFrom .queued ops) := by
  have hmain := chain_aux ops .queued (orchStatusWrites env) (inv_init env) h
  exact ⟨hmain, hmain.imp (fun a b hab ht => allowed_terminal a b hab ht)⟩

/-- C1 counterexample: cancelling a still-queued job writes
`cancelling` (not an edge of the claimed graph), and when the
orchestrator then starts it overwrites it with `processing` (also not
an edge): the trace `queued, cancelling, processing, canceled` is
produced by a valid schedule of the early-cancelled run, yet two of its
transitions are outside the claimed graph. -/
theorem c1_counterexample :
    ValidSchedule envEarlyCancel [Op.cancel, Op.orch .processing, Op.orch .canceled] ∧
    traceFrom .queued [Op.cancel, Op.orch .processing, Op.orch .canceled]
      = [.queued, .cancelling, .processing, .canceled] ∧
    specEdge .queued .cancelling = false ∧
    specEdge .cancelling .processing = false := by
  refine ⟨?_, by decide, by decide, by decide⟩
  show _ = orchStatusWrites envEarlyCancel
  decide

/-- C1 witness: the amended theorem at the clean run scheduled with no
cancellation writes. -/
theorem c1_witness :
    ValidSchedule envClean [Op.orch .processing, Op.orch .complete] ∧
    List.Chain' AllowedStep
      (traceFrom .queued [Op.orch .processing, Op.orch .complete]) :=
  ⟨by show _ = orchStatusWrites envClean; decide,
   (c1_amended envClean [Op.orch .processing, Op.orch .complete]
      (by show _ = orchStatusWrites envClean; decide)).1⟩

end SurveyMapperModel
